import Mathlib

/-!
Verification of the StackStorm execution-retry policy
(`st2actions/st2actions/policies/retry.py`) against its design
specification.  The Python module is shallowly embedded: live-action
contexts become an association-list model of Python dicts, the applicator
becomes a pure evaluator returning the decision outcome together with the
(unchanged) target and, on a retry, the newly constructed live-action
request; Python exceptions become `Except Unit`.
-/

namespace St2Retry

/-- Python-like values stored in a live action context:
`None`, strings, integers and (nested) dicts. -/
inductive PyVal where
  | none : PyVal
  | str : String → PyVal
  | int : Int → PyVal
  | dict : List (String × PyVal) → PyVal
deriving Repr

/-- A Python dict with string keys, as an association list. -/
abbrev Dict := List (String × PyVal)

/-- Embedding of `d.get(k)` returning absent as `Option.none`: Python
dicts have unique keys, so lookup of the first matching key. -/
def dictGet : Dict → String → Option PyVal
  | [], _ => Option.none
  | a :: as, k => if a.1 == k then Option.some a.2 else dictGet as k

/-- Embedding of Python `d.get(k, default)`. -/
def dictGetD (d : Dict) (k : String) (v : PyVal) : PyVal :=
  (dictGet d k).getD v

/-- Embedding of Python `d[k] = v`: replace the entry in place if the key
is present, append it otherwise (Python dicts keep insertion order). -/
def dictSet : Dict → String → PyVal → Dict
  | [], k, v => [(k, v)]
  | a :: as, k, v => if a.1 == k then (k, v) :: as else a :: dictSet as k v

/-- Embedding of Python `x is None`. -/
def pyIsNone : PyVal → Bool
  | PyVal.none => true
  | _ => false

/-- Embedding of Python `x == \x7b\x7d` (equality with the empty dict):
true exactly for the empty dict value. -/
def pyEqEmptyDict : PyVal → Bool
  | PyVal.dict [] => true
  | _ => false

/-- Embedding of Python `x + 1` as used on the retry count: defined on
integers, raises (`TypeError`) on every other context value. -/
def pyIntPlusOne : PyVal → Except Unit Int
  | PyVal.int n => Except.ok (n + 1)
  | _ => Except.error ()

/-- Embedding of `d.get(k, \x7b\x7d)` followed by use as a dict: absent keys
default to the empty dict, a present non-dict value raises
(`AttributeError` on the subsequent `.get`). -/
def getSubDict (d : Dict) (k : String) : Except Unit Dict :=
  match dictGet d k with
  | Option.none => Except.ok []
  | Option.some (PyVal.dict d2) => Except.ok d2
  | Option.some _ => Except.error ()

/-- `LIVEACTION_STATUS_FAILED` from `st2common.constants.action`. -/
def LIVEACTION_STATUS_FAILED : String := "failed"

/-- `LIVEACTION_STATUS_TIMED_OUT` from `st2common.constants.action`. -/
def LIVEACTION_STATUS_TIMED_OUT : String := "timeout"

/-- `LIVEACTION_STATUS_SUCCEEDED`, one of the other terminal statuses. -/
def LIVEACTION_STATUS_SUCCEEDED : String := "succeeded"

/-- `VALID_RETRY_STATUSES = [LIVEACTION_STATUS_FAILED,
LIVEACTION_STATUS_TIMED_OUT]` from `retry.py`. -/
def VALID_RETRY_STATUSES : List String :=
  [LIVEACTION_STATUS_FAILED, LIVEACTION_STATUS_TIMED_OUT]

namespace RetryOnPolicy

/-- `RetryOnPolicy.FAILURE = "failure"` from `retry.py`. -/
def FAILURE : String := "failure"

/-- `RetryOnPolicy.TIMEOUT = "timeout"` from `retry.py`. -/
def TIMEOUT : String := "timeout"

end RetryOnPolicy

/-- The fields of `LiveActionDB` read by the retry applicator: identifier,
status, context (possibly absent), action reference and parameters. -/
structure LiveActionDB where
  id : String
  status : String
  context : Option Dict
  action : String
  parameters : PyVal
deriving Repr

/-- Embedding of `getattr(live_action_db, "context", \x7b\x7d)`. -/
def getContext (la : LiveActionDB) : Dict :=
  la.context.getD []

/-- The state of an `ExecutionRetryPolicyApplicator` after `__init__`:
policy reference, trigger condition, retry ceiling and delay. -/
structure ExecutionRetryPolicyApplicator where
  policy_ref : String
  retry_on : String
  max_retry_count : Int
  delay : Rat
deriving Repr

/-- How the resubmission is arranged: directly in the caller
(`self._re_run_live_action(...)`) or as a deferred task
(`eventlet.spawn_after(delay, ...)`). -/
inductive Schedule where
  | immediate : Schedule
  | spawn_after (delay : Rat) : Schedule
deriving Repr, DecidableEq

/-- The new live action constructed by `_re_run_live_action` and handed to
`action_services.request`: `LiveActionDB(action=..., parameters=...,
context=new_context)`. -/
structure NewLiveActionRequest where
  action : String
  parameters : PyVal
  context : Dict
deriving Repr

/-- The decision outcome of one `apply_after` run, abstracting the branch
taken (each branch is logged in the source). -/
inductive Decision where
  | skipped_workflow_step : Decision
  | skipped_invalid_status : Decision
  | skipped_max_retries : Decision
  | retried (sched : Schedule) (child : NewLiveActionRequest) : Decision
  | no_match : Decision
deriving Repr

/-- Result of `apply_after`: the returned target and the decision taken. -/
structure ApplyAfterResult where
  target : LiveActionDB
  decision : Decision
deriving Repr

/-- Modelled from the spec: `ResourcePolicyApplicator.apply_after` of
`st2common.policies.base` is not under `src/`; per the spec the evaluation
is a pure function of its inputs apart from logging and the old execution
is never mutated, so the base applicator passes the target through
unchanged. -/
def base_apply_after (target : LiveActionDB) : LiveActionDB :=
  target

/-- Modelled from the spec: `st2common.util.deep_copy.fast_deepcopy_dict`
is not under `src/`; the spec mandates a deep copy so that the new
execution shares no mutable structure with the original.  Over immutable
Lean values a deep copy is the identity on the value. -/
def fast_deepcopy_dict (d : Dict) : Dict :=
  d

/-- Embedding of `_is_live_action_part_of_workflow_action`:
`parent = context.get("parent", \x7b\x7d); parent is not None and
parent != \x7b\x7d`. -/
def is_live_action_part_of_workflow_action (la : LiveActionDB) : Bool :=
  let context := getContext la
  let parent := dictGetD context "parent" (PyVal.dict [])
  (!pyIsNone parent) && (!pyEqEmptyDict parent)

/-- Embedding of `_get_live_action_retry_count`:
`context.get("policies", \x7b\x7d).get("retry", \x7b\x7d).get("retry_count", 0)`. -/
def get_live_action_retry_count (la : LiveActionDB) : Except Unit PyVal :=
  let context := getContext la
  match getSubDict context "policies" with
  | Except.error e => Except.error e
  | Except.ok policies =>
    match getSubDict policies "retry" with
    | Except.error e => Except.error e
    | Except.ok retry =>
      Except.ok (dictGetD retry "retry_count" (PyVal.int 0))

/-- Embedding of `_re_run_live_action`: re-read the retry count, deep-copy
the context, replace its `policies` entry by a dict holding only the
`retry` record (applied policy, incremented count, retried live action
id), and build the new live action request submitted via
`action_services.request`. -/
def re_run_live_action (p : ExecutionRetryPolicyApplicator)
    (live_action_db : LiveActionDB) : Except Unit NewLiveActionRequest :=
  match get_live_action_retry_count live_action_db with
  | Except.error e => Except.error e
  | Except.ok retry_count =>
    let context := getContext live_action_db
    let new_context := fast_deepcopy_dict context
    match pyIntPlusOne retry_count with
    | Except.error e => Except.error e
    | Except.ok rc1 =>
      let new_context := dictSet new_context "policies" (PyVal.dict [])
      let new_context := dictSet new_context "policies"
        (PyVal.dict (dictSet [] "retry" (PyVal.dict
          [("applied_policy", PyVal.str p.policy_ref),
           ("retry_count", PyVal.int rc1),
           ("retried_liveaction_id", PyVal.str live_action_db.id)])))
      Except.ok
        { action := live_action_db.action,
          parameters := live_action_db.parameters,
          context := new_context }

/-- Embedding of `ExecutionRetryPolicyApplicator.apply_after`, in source
order: workflow-step check, retry-count read, status gate, ceiling check,
delay-dependent choice of scheduling, trigger match on failure then on
timeout, fall-through non-match.  The dead reassignment of the 0.1-second
deferred closure in the `delay <= 0` branch is kept as a shadowed binding. -/
def apply_after (p : ExecutionRetryPolicyApplicator) (target : LiveActionDB) :
    Except Unit ApplyAfterResult :=
  let target := base_apply_after target
  let live_action_db := target
  if is_live_action_part_of_workflow_action live_action_db then
    Except.ok { target := target, decision := Decision.skipped_workflow_step }
  else
    match get_live_action_retry_count live_action_db with
    | Except.error e => Except.error e
    | Except.ok retry_count =>
      if !(VALID_RETRY_STATUSES.contains live_action_db.status) then
        Except.ok { target := target, decision := Decision.skipped_invalid_status }
      else
        match pyIntPlusOne retry_count with
        | Except.error e => Except.error e
        | Except.ok rc1 =>
          if rc1 > p.max_retry_count then
            Except.ok { target := target, decision := Decision.skipped_max_retries }
          else
            let has_failed := live_action_db.status == LIVEACTION_STATUS_FAILED
            let has_timed_out := live_action_db.status == LIVEACTION_STATUS_TIMED_OUT
            let sched :=
              if p.delay > 0 then
                Schedule.spawn_after p.delay
              else
                let sched := Schedule.spawn_after (1 / 10 : Rat)
                Schedule.immediate
            if has_failed && (p.retry_on == RetryOnPolicy.FAILURE) then
              match re_run_live_action p live_action_db with
              | Except.error e => Except.error e
              | Except.ok child =>
                Except.ok { target := target, decision := Decision.retried sched child }
            else if has_timed_out && (p.retry_on == RetryOnPolicy.TIMEOUT) then
              match re_run_live_action p live_action_db with
              | Except.error e => Except.error e
              | Except.ok child =>
                Except.ok { target := target, decision := Decision.retried sched child }
            else
              Except.ok { target := target, decision := Decision.no_match }

/-- Whether a decision is the RETRY outcome. -/
def Decision.isRetried : Decision → Bool
  | Decision.retried _ _ => true
  | _ => false

/-- The scheduling actually requested by `apply_after` for a given policy:
a deferred task after `delay` when positive, a direct call otherwise. -/
def schedOf (p : ExecutionRetryPolicyApplicator) : Schedule :=
  if p.delay > 0 then Schedule.spawn_after p.delay else Schedule.immediate

/-- The retry sub-map written into the child context when the parent's
current retry count is `n`. -/
def retry_map (p : ExecutionRetryPolicyApplicator) (la : LiveActionDB)
    (n : Int) : Dict :=
  [("applied_policy", PyVal.str p.policy_ref),
   ("retry_count", PyVal.int (n + 1)),
   ("retried_liveaction_id", PyVal.str la.id)]

/-- The child live-action request produced by `re_run_live_action` when
the parent's current retry count is `n`. -/
def retry_child (p : ExecutionRetryPolicyApplicator) (la : LiveActionDB)
    (n : Int) : NewLiveActionRequest :=
  { action := la.action,
    parameters := la.parameters,
    context := dictSet (getContext la) "policies"
      (PyVal.dict [("retry", PyVal.dict (retry_map p la n))]) }

/-! Concrete fixtures used by witnesses and counterexamples. -/

/-- A policy retrying on failure, at most twice, with no delay. -/
def pol_fail_2_0 : ExecutionRetryPolicyApplicator :=
  { policy_ref := "core.retry_on_failure",
    retry_on := RetryOnPolicy.FAILURE,
    max_retry_count := 2,
    delay := 0 }

/-- A policy retrying on timeout, at most twice, with no delay. -/
def pol_timeout_2_0 : ExecutionRetryPolicyApplicator :=
  { policy_ref := "core.retry_on_timeout",
    retry_on := RetryOnPolicy.TIMEOUT,
    max_retry_count := 2,
    delay := 0 }

/-- A policy retrying on failure, at most twice, with a 5-second delay. -/
def pol_fail_2_5 : ExecutionRetryPolicyApplicator :=
  { policy_ref := "core.retry_on_failure",
    retry_on := RetryOnPolicy.FAILURE,
    max_retry_count := 2,
    delay := 5 }

/-- A failed live action whose context attribute is absent. -/
def la_failed_noctx : LiveActionDB :=
  { id := "la-0", status := LIVEACTION_STATUS_FAILED,
    context := Option.none, action := "pack.act", parameters := PyVal.int 7 }

/-- A failed live action with an empty context. -/
def la_failed_emptyctx : LiveActionDB :=
  { id := "la-1", status := LIVEACTION_STATUS_FAILED,
    context := Option.some [], action := "pack.act", parameters := PyVal.int 7 }

/-- A timed-out live action with an empty context. -/
def la_timedout_emptyctx : LiveActionDB :=
  { id := "la-2", status := LIVEACTION_STATUS_TIMED_OUT,
    context := Option.some [], action := "pack.act", parameters := PyVal.int 7 }

/-- A succeeded live action with an empty context. -/
def la_succeeded : LiveActionDB :=
  { id := "la-3", status := LIVEACTION_STATUS_SUCCEEDED,
    context := Option.some [], action := "pack.act", parameters := PyVal.int 7 }

/-- A failed live action already retried twice
(`context.policies.retry.retry_count = 2`). -/
def la_failed_rc2 : LiveActionDB :=
  { id := "la-4", status := LIVEACTION_STATUS_FAILED,
    context := Option.some
      [("policies", PyVal.dict
        [("retry", PyVal.dict [("retry_count", PyVal.int 2)])])],
    action := "pack.act", parameters := PyVal.int 7 }

/-- A failed live action executed as a workflow step
(non-empty `context.parent`). -/
def la_failed_parent : LiveActionDB :=
  { id := "la-5", status := LIVEACTION_STATUS_FAILED,
    context := Option.some
      [("parent", PyVal.dict [("execution_id", PyVal.str "abc")])],
    action := "pack.act", parameters := PyVal.int 7 }

/-- A failed live action whose context has an explicit `parent` key set
to `None`. -/
def la_parent_none : LiveActionDB :=
  { id := "la-6", status := LIVEACTION_STATUS_FAILED,
    context := Option.some [("parent", PyVal.none)],
    action := "pack.act", parameters := PyVal.int 7 }

/-- A failed live action whose context carries a top-level `user` key and
a `policies` map holding a sibling `concurrency` entry next to where the
retry record would go. -/
def la_failed_sibling : LiveActionDB :=
  { id := "orig-1", status := LIVEACTION_STATUS_FAILED,
    context := Option.some
      [("user", PyVal.str "alice"),
       ("policies", PyVal.dict [("concurrency", PyVal.int 5)])],
    action := "pack.act", parameters := PyVal.int 7 }

/-- The retry record written for `la_failed_sibling` under
`pol_fail_2_0`. -/
def c4_retry_map : Dict :=
  [("applied_policy", PyVal.str "core.retry_on_failure"),
   ("retry_count", PyVal.int 1),
   ("retried_liveaction_id", PyVal.str "orig-1")]

/-- The child live-action request produced for `la_failed_sibling` under
`pol_fail_2_0`. -/
def c4_child : NewLiveActionRequest :=
  { action := "pack.act",
    parameters := PyVal.int 7,
    context :=
      [("user", PyVal.str "alice"),
       ("policies", PyVal.dict [("retry", PyVal.dict c4_retry_map)])] }

/-! Dictionary lemmas. -/

/-- Looking up the key just set returns the new value. -/
theorem dictGet_dictSet_self (d : Dict) (k : String) (v : PyVal) :
    dictGet (dictSet d k v) k = Option.some v := by
  induction d with
  | nil => simp [dictSet, dictGet]
  | cons a as ih =>
    by_cases h : a.1 == k
    · simp [dictSet, dictGet, h]
    · simp only [dictSet, dictGet, h, Bool.false_eq_true, if_false]
      exact ih

/-- Looking up a different key is unaffected by a set. -/
theorem dictGet_dictSet_ne (d : Dict) (k k' : String) (v : PyVal)
    (h : k' ≠ k) : dictGet (dictSet d k v) k' = dictGet d k' := by
  induction d with
  | nil => simp [dictSet, dictGet, Ne.symm h]
  | cons a as ih =>
    by_cases ha : a.1 == k
    · have ha' : a.1 = k := by simpa using ha
      simp [dictSet, dictGet, ha, ha', Ne.symm h]
    · simp [dictSet, dictGet, ha, ih]

/-- Setting the same key twice keeps only the second value. -/
theorem dictSet_dictSet_same (d : Dict) (k : String) (v1 v2 : PyVal) :
    dictSet (dictSet d k v1) k v2 = dictSet d k v2 := by
  induction d with
  | nil => simp [dictSet]
  | cons a as ih =>
    by_cases h : a.1 == k
    · simp [dictSet, h]
    · simp [dictSet, h, ih]

/-! Evaluator lemmas. -/

/-- When the live action's retry count reads as the integer `n`,
`re_run_live_action` succeeds and produces exactly `retry_child p la n`. -/
theorem re_run_live_action_eq (p : ExecutionRetryPolicyApplicator)
    (la : LiveActionDB) (n : Int)
    (hrc : get_live_action_retry_count la = Except.ok (PyVal.int n)) :
    re_run_live_action p la = Except.ok (retry_child p la n) := by
  simp [re_run_live_action, hrc, pyIntPlusOne, fast_deepcopy_dict,
    retry_child, retry_map, dictSet_dictSet_same, dictSet]

/-- Under passed workflow, status and ceiling gates, `apply_after`
reduces to the trigger-match dispatch. -/
theorem apply_after_gates_passed (p : ExecutionRetryPolicyApplicator)
    (la : LiveActionDB) (n : Int)
    (hwf : is_live_action_part_of_workflow_action la = false)
    (hrc : get_live_action_retry_count la = Except.ok (PyVal.int n))
    (hst : VALID_RETRY_STATUSES.contains la.status = true)
    (hceil : ¬n + 1 > p.max_retry_count) :
    apply_after p la =
      if la.status == LIVEACTION_STATUS_FAILED
          && (p.retry_on == RetryOnPolicy.FAILURE) then
        Except.ok
          { target := la,
            decision := Decision.retried (schedOf p) (retry_child p la n) }
      else if la.status == LIVEACTION_STATUS_TIMED_OUT
          && (p.retry_on == RetryOnPolicy.TIMEOUT) then
        Except.ok
          { target := la,
            decision := Decision.retried (schedOf p) (retry_child p la n) }
      else
        Except.ok { target := la, decision := Decision.no_match } := by
  have hst' : la.status ∈ VALID_RETRY_STATUSES := by simpa using hst
  simp [apply_after, base_apply_after, hwf, hrc, hst', pyIntPlusOne, hceil,
    re_run_live_action_eq p la n hrc, schedOf]

/-- `apply_after` cannot raise once the retry count reads as an integer. -/
theorem apply_after_ok_of_int (p : ExecutionRetryPolicyApplicator)
    (la : LiveActionDB) (n : Int)
    (hrc : get_live_action_retry_count la = Except.ok (PyVal.int n)) :
    ∃ r, apply_after p la = Except.ok r := by
  simp only [apply_after, base_apply_after, hrc, pyIntPlusOne,
    re_run_live_action_eq p la n hrc]
  repeat' split
  all_goals exact ⟨_, rfl⟩

/-! Claim theorems. -/

/-- C3: an execution whose `context.parent` is present and non-empty is
always decided SKIPPED_WORKFLOW_STEP with the target returned unchanged,
no matter the policy configuration, the status or the retry count. -/
theorem workflow_step_always_skipped (p : ExecutionRetryPolicyApplicator)
    (la : LiveActionDB) (parent : PyVal)
    (hp : dictGet (getContext la) "parent" = Option.some parent)
    (hn : pyIsNone parent = false)
    (he : pyEqEmptyDict parent = false) :
    apply_after p la =
      Except.ok { target := la, decision := Decision.skipped_workflow_step } := by
  have hwf : is_live_action_part_of_workflow_action la = true := by
    simp [is_live_action_part_of_workflow_action, dictGetD, hp, hn, he]
  simp [apply_after, base_apply_after, hwf]

/-- C3 witness: the workflow-step fixture is skipped. -/
theorem workflow_step_always_skipped_witness :
    apply_after pol_fail_2_0 la_failed_parent =
      Except.ok
        { target := la_failed_parent,
          decision := Decision.skipped_workflow_step } :=
  workflow_step_always_skipped pol_fail_2_0 la_failed_parent
    (PyVal.dict [("execution_id", PyVal.str "abc")]) rfl rfl rfl

/-- C10: when `context.parent` is explicitly present, the execution is
not treated as a workflow step exactly when the value is `None` or the
empty dict; any other value (a non-empty string included) triggers the
workflow-step skip. -/
theorem parent_none_or_empty_iff_not_workflow (la : LiveActionDB)
    (parent : PyVal)
    (hp : dictGet (getContext la) "parent" = Option.some parent) :
    is_live_action_part_of_workflow_action la = false ↔
      parent = PyVal.none ∨ parent = PyVal.dict [] := by
  have hwf : is_live_action_part_of_workflow_action la =
      ((!pyIsNone parent) && (!pyEqEmptyDict parent)) := by
    simp [is_live_action_part_of_workflow_action, dictGetD, hp]
  rw [hwf]
  cases parent with
  | none => simp [pyIsNone, pyEqEmptyDict]
  | str s => simp [pyIsNone, pyEqEmptyDict]
  | int n => simp [pyIsNone, pyEqEmptyDict]
  | dict l => cases l <;> simp [pyIsNone, pyEqEmptyDict]

/-- C10 witness: an explicit `parent: None` does not count as a
workflow step. -/
theorem parent_none_or_empty_iff_not_workflow_witness :
    is_live_action_part_of_workflow_action la_parent_none = false ↔
      PyVal.none = PyVal.none ∨ PyVal.none = PyVal.dict [] :=
  parent_none_or_empty_iff_not_workflow la_parent_none PyVal.none rfl

/-- C6: a non-workflow execution whose status is neither FAILED nor
TIMED_OUT is decided SKIPPED_INVALID_STATUS, whatever the policy's
trigger and ceiling and whatever the stored retry count. -/
theorem invalid_status_skipped (p : ExecutionRetryPolicyApplicator)
    (la : LiveActionDB) (rc : PyVal)
    (hwf : is_live_action_part_of_workflow_action la = false)
    (hrc : get_live_action_retry_count la = Except.ok rc)
    (hst : VALID_RETRY_STATUSES.contains la.status = false) :
    apply_after p la =
      Except.ok { target := la, decision := Decision.skipped_invalid_status } := by
  have hst' : la.status ∉ VALID_RETRY_STATUSES := by simpa using hst
  simp [apply_after, base_apply_after, hwf, hrc, hst']

/-- C6 witness: a succeeded execution is skipped as invalid status. -/
theorem invalid_status_skipped_witness :
    apply_after pol_fail_2_0 la_succeeded =
      Except.ok
        { target := la_succeeded,
          decision := Decision.skipped_invalid_status } :=
  invalid_status_skipped pol_fail_2_0 la_succeeded (PyVal.int 0) rfl rfl rfl

/-- C2: the retry count is read from `context.policies.retry.retry_count`
(defaulting to 0 when the key is absent), and once the workflow and
status gates pass, `count + 1 > max_retry_count` is decided
SKIPPED_MAX_RETRIES with no retry submitted. -/
theorem max_retries_ceiling (p : ExecutionRetryPolicyApplicator)
    (la : LiveActionDB) :
    (∀ n : Int, is_live_action_part_of_workflow_action la = false →
      get_live_action_retry_count la = Except.ok (PyVal.int n) →
      VALID_RETRY_STATUSES.contains la.status = true →
      n + 1 > p.max_retry_count →
      apply_after p la =
        Except.ok { target := la, decision := Decision.skipped_max_retries }) ∧
    (∀ policies retry,
      getSubDict (getContext la) "policies" = Except.ok policies →
      getSubDict policies "retry" = Except.ok retry →
      dictGet retry "retry_count" = Option.none →
      get_live_action_retry_count la = Except.ok (PyVal.int 0)) := by
  constructor
  · intro n hwf hrc hst hceil
    have hst' : la.status ∈ VALID_RETRY_STATUSES := by simpa using hst
    simp [apply_after, base_apply_after, hwf, hrc, hst', pyIntPlusOne, hceil]
  · intro policies retry h1 h2 h3
    simp [get_live_action_retry_count, h1, h2, dictGetD, h3]

/-- C2 witness: a failed execution already retried twice is skipped
under a ceiling of 2, and an empty context reads as retry count 0. -/
theorem max_retries_ceiling_witness :
    apply_after pol_fail_2_0 la_failed_rc2 =
      Except.ok
        { target := la_failed_rc2,
          decision := Decision.skipped_max_retries } ∧
    get_live_action_retry_count la_failed_emptyctx =
      Except.ok (PyVal.int 0) :=
  ⟨(max_retries_ceiling pol_fail_2_0 la_failed_rc2).1 2 rfl rfl rfl (by decide),
   (max_retries_ceiling pol_fail_2_0 la_failed_emptyctx).2 [] [] rfl rfl rfl⟩

/-- C9: an entirely absent context, an absent `parent` key and an absent
retry count are treated as first-attempt state (no parent, count 0), and
evaluation completes without raising. -/
theorem absent_context_fields_default (p : ExecutionRetryPolicyApplicator)
    (la : LiveActionDB) :
    (la.context = Option.none →
      is_live_action_part_of_workflow_action la = false ∧
      get_live_action_retry_count la = Except.ok (PyVal.int 0) ∧
      ∃ r, apply_after p la = Except.ok r) ∧
    (∀ ctx, la.context = Option.some ctx →
      dictGet ctx "parent" = Option.none →
      is_live_action_part_of_workflow_action la = false) ∧
    (∀ ctx, la.context = Option.some ctx →
      dictGet ctx "policies" = Option.none →
      get_live_action_retry_count la = Except.ok (PyVal.int 0)) ∧
    (∀ ctx pd rd, la.context = Option.some ctx →
      dictGet ctx "policies" = Option.some (PyVal.dict pd) →
      dictGet pd "retry" = Option.some (PyVal.dict rd) →
      dictGet rd "retry_count" = Option.none →
      get_live_action_retry_count la = Except.ok (PyVal.int 0)) := by
  refine ⟨?_, ?_, ?_, ?_⟩
  · intro h
    have h1 : is_live_action_part_of_workflow_action la = false := by
      simp [is_live_action_part_of_workflow_action, getContext, h, dictGetD,
        dictGet, pyIsNone, pyEqEmptyDict]
    have h2 : get_live_action_retry_count la = Except.ok (PyVal.int 0) := by
      simp [get_live_action_retry_count, getContext, h, getSubDict, dictGet,
        dictGetD]
    exact ⟨h1, h2, apply_after_ok_of_int p la 0 h2⟩
  · intro ctx h hpar
    simp [is_live_action_part_of_workflow_action, getContext, h, dictGetD,
      hpar, pyIsNone, pyEqEmptyDict]
  · intro ctx h hpol
    simp [get_live_action_retry_count, getContext, h, getSubDict, hpol,
      dictGetD, dictGet]
  · intro ctx pd rd h h1 h2 h3
    simp [get_live_action_retry_count, getContext, h, getSubDict, h1, h2,
      dictGetD, h3]

/-- C9 witness: the fixture with an absent context attribute defaults to
no parent and retry count 0. -/
theorem absent_context_fields_default_witness :
    is_live_action_part_of_workflow_action la_failed_noctx = false ∧
    get_live_action_retry_count la_failed_noctx = Except.ok (PyVal.int 0) :=
  ⟨((absent_context_fields_default pol_fail_2_0 la_failed_noctx).1 rfl).1,
   ((absent_context_fields_default pol_fail_2_0 la_failed_noctx).1 rfl).2.1⟩

/-- C1: past the workflow, status and ceiling gates, a retry is
submitted exactly when the status matches the trigger (FAILED with the
on-failure trigger, or TIMED_OUT with the on-timeout trigger); a
status/trigger mismatch yields the logged non-match outcome and no
retry. -/
theorem retry_iff_trigger_matches (p : ExecutionRetryPolicyApplicator)
    (la : LiveActionDB) (n : Int)
    (hwf : is_live_action_part_of_workflow_action la = false)
    (hrc : get_live_action_retry_count la = Except.ok (PyVal.int n))
    (hst : VALID_RETRY_STATUSES.contains la.status = true)
    (hceil : ¬n + 1 > p.max_retry_count) :
    ((∃ res, apply_after p la = Except.ok res ∧
        res.decision.isRetried = true) ↔
      (la.status = LIVEACTION_STATUS_FAILED ∧
        p.retry_on = RetryOnPolicy.FAILURE) ∨
      (la.status = LIVEACTION_STATUS_TIMED_OUT ∧
        p.retry_on = RetryOnPolicy.TIMEOUT)) ∧
    (¬((la.status = LIVEACTION_STATUS_FAILED ∧
        p.retry_on = RetryOnPolicy.FAILURE) ∨
       (la.status = LIVEACTION_STATUS_TIMED_OUT ∧
        p.retry_on = RetryOnPolicy.TIMEOUT)) →
      apply_after p la =
        Except.ok { target := la, decision := Decision.no_match }) := by
  rw [apply_after_gates_passed p la n hwf hrc hst hceil]
  by_cases hf : la.status = LIVEACTION_STATUS_FAILED ∧
      p.retry_on = RetryOnPolicy.FAILURE
  · constructor
    · simp [hf.1, hf.2, Decision.isRetried]
    · intro hcon; exact absurd (Or.inl hf) hcon
  · by_cases ht : la.status = LIVEACTION_STATUS_TIMED_OUT ∧
        p.retry_on = RetryOnPolicy.TIMEOUT
    · constructor
      · simp [ht.1, ht.2, Decision.isRetried, hf,
          LIVEACTION_STATUS_TIMED_OUT, LIVEACTION_STATUS_FAILED]
      · intro hcon; exact absurd (Or.inr ht) hcon
    · have hbf : (la.status == LIVEACTION_STATUS_FAILED
          && (p.retry_on == RetryOnPolicy.FAILURE)) = false := by
        rcases not_and_or.mp hf with h | h <;> simp [h]
      have hbt : (la.status == LIVEACTION_STATUS_TIMED_OUT
          && (p.retry_on == RetryOnPolicy.TIMEOUT)) = false := by
        rcases not_and_or.mp ht with h | h <;> simp [h]
      constructor
      · simp [hbf, hbt, Decision.isRetried, hf, ht]
      · intro hcon
        simp [hbf, hbt]

/-- C1 witness: a FAILED execution under an on-timeout policy is a
non-match and produces no retry. -/
theorem retry_iff_trigger_matches_witness :
    apply_after pol_timeout_2_0 la_failed_emptyctx =
      Except.ok
        { target := la_failed_emptyctx, decision := Decision.no_match } :=
  (retry_iff_trigger_matches pol_timeout_2_0 la_failed_emptyctx 0
      rfl rfl rfl (by decide)).2 (by decide)

/-- C5: every retried execution's child carries
`policies.retry.retry_count` equal to the parent's count plus one and
`retried_liveaction_id` equal to the parent's identifier, and repeats the
parent's action reference and parameters. -/
theorem retry_child_lineage (p : ExecutionRetryPolicyApplicator)
    (la : LiveActionDB) (n : Int) (child : NewLiveActionRequest)
    (hrc : get_live_action_retry_count la = Except.ok (PyVal.int n))
    (hrr : re_run_live_action p la = Except.ok child) :
    dictGet child.context "policies" =
      Option.some (PyVal.dict [("retry", PyVal.dict (retry_map p la n))]) ∧
    dictGet (retry_map p la n) "retry_count" =
      Option.some (PyVal.int (n + 1)) ∧
    dictGet (retry_map p la n) "retried_liveaction_id" =
      Option.some (PyVal.str la.id) ∧
    child.action = la.action ∧ child.parameters = la.parameters := by
  have h := (re_run_live_action_eq p la n hrc).symm.trans hrr
  injection h with h
  refine ⟨?_, ?_, ?_, ?_, ?_⟩
  · rw [← h]
    exact dictGet_dictSet_self _ _ _
  · simp [retry_map, dictGet]
  · simp [retry_map, dictGet]
  · rw [← h]; rfl
  · rw [← h]; rfl

/-- C5 witness: retrying a failed execution with an empty context gives
a first child whose retry count is 1 and whose lineage id, action and
parameters are the parent's. -/
theorem retry_child_lineage_witness :
    dictGet (retry_child pol_fail_2_0 la_failed_emptyctx 0).context
        "policies" =
      Option.some (PyVal.dict
        [("retry",
          PyVal.dict (retry_map pol_fail_2_0 la_failed_emptyctx 0))]) ∧
    dictGet (retry_map pol_fail_2_0 la_failed_emptyctx 0) "retry_count" =
      Option.some (PyVal.int 1) ∧
    dictGet (retry_map pol_fail_2_0 la_failed_emptyctx 0)
        "retried_liveaction_id" =
      Option.some (PyVal.str "la-1") ∧
    (retry_child pol_fail_2_0 la_failed_emptyctx 0).action = "pack.act" ∧
    (retry_child pol_fail_2_0 la_failed_emptyctx 0).parameters =
      PyVal.int 7 :=
  retry_child_lineage pol_fail_2_0 la_failed_emptyctx 0
    (retry_child pol_fail_2_0 la_failed_emptyctx 0) rfl rfl

/-- C4 counterexample: retrying `la_failed_sibling` (which holds a
sibling `concurrency` entry under `policies`) produces a child whose
`policies` map holds only the retry record: the sibling key is dropped,
not carried over. -/
theorem sibling_policy_keys_dropped :
    apply_after pol_fail_2_0 la_failed_sibling =
      Except.ok
        { target := la_failed_sibling,
          decision := Decision.retried Schedule.immediate c4_child } ∧
    dictGet (getContext la_failed_sibling) "policies" =
      Option.some (PyVal.dict [("concurrency", PyVal.int 5)]) ∧
    dictGet c4_child.context "policies" =
      Option.some (PyVal.dict [("retry", PyVal.dict c4_retry_map)]) ∧
    dictGet [("retry", PyVal.dict c4_retry_map)] "concurrency" =
      Option.none :=
  ⟨rfl, rfl, rfl, rfl⟩

/-- C4 amended: the child context is the deep-copied original whose
entire `policies` entry is replaced by a map holding only the fresh
retry record; every top-level key other than `policies` is carried over
unchanged (sibling keys under `policies` are dropped). -/
theorem child_context_replaces_policies (p : ExecutionRetryPolicyApplicator)
    (la : LiveActionDB) (n : Int) (child : NewLiveActionRequest)
    (hrc : get_live_action_retry_count la = Except.ok (PyVal.int n))
    (hrr : re_run_live_action p la = Except.ok child) :
    child.context = dictSet (getContext la) "policies"
      (PyVal.dict [("retry", PyVal.dict (retry_map p la n))]) ∧
    ∀ k, k ≠ "policies" →
      dictGet child.context k = dictGet (getContext la) k := by
  have h := (re_run_live_action_eq p la n hrc).symm.trans hrr
  injection h with h
  constructor
  · rw [← h]; rfl
  · intro k hk
    rw [← h]
    exact dictGet_dictSet_ne _ _ _ _ hk

/-- C4 amended witness: at the sibling fixture the child context is the
original with its `policies` entry wholly replaced. -/
theorem child_context_replaces_policies_witness :
    c4_child.context = dictSet (getContext la_failed_sibling) "policies"
      (PyVal.dict [("retry",
        PyVal.dict (retry_map pol_fail_2_0 la_failed_sibling 0))]) :=
  (child_context_replaces_policies pol_fail_2_0 la_failed_sibling 0
    c4_child rfl rfl).1

/-- C7: when a retry is triggered, a non-positive `delay` submits the
new execution directly with no artificial minimum wait, and a positive
`delay` defers the submission by exactly that delay. -/
theorem delay_drives_schedule (p : ExecutionRetryPolicyApplicator)
    (la : LiveActionDB) (n : Int)
    (hwf : is_live_action_part_of_workflow_action la = false)
    (hrc : get_live_action_retry_count la = Except.ok (PyVal.int n))
    (hst : VALID_RETRY_STATUSES.contains la.status = true)
    (hceil : ¬n + 1 > p.max_retry_count)
    (htrig : (la.status = LIVEACTION_STATUS_FAILED ∧
        p.retry_on = RetryOnPolicy.FAILURE) ∨
      (la.status = LIVEACTION_STATUS_TIMED_OUT ∧
        p.retry_on = RetryOnPolicy.TIMEOUT)) :
    (p.delay ≤ 0 → apply_after p la =
      Except.ok
        { target := la,
          decision := Decision.retried Schedule.immediate
            (retry_child p la n) }) ∧
    (p.delay > 0 → apply_after p la =
      Except.ok
        { target := la,
          decision := Decision.retried (Schedule.spawn_after p.delay)
            (retry_child p la n) }) := by
  rw [apply_after_gates_passed p la n hwf hrc hst hceil]
  rcases htrig with ⟨h1, h2⟩ | ⟨h1, h2⟩
  · constructor
    · intro hd
      simp [h1, h2, schedOf, not_lt.mpr hd]
    · intro hd
      simp [h1, h2, schedOf, hd]
  · constructor
    · intro hd
      simp [h1, h2, schedOf, not_lt.mpr hd,
        LIVEACTION_STATUS_TIMED_OUT, LIVEACTION_STATUS_FAILED]
    · intro hd
      simp [h1, h2, schedOf, hd,
        LIVEACTION_STATUS_TIMED_OUT, LIVEACTION_STATUS_FAILED]

/-- C7 witness: delay 0 schedules the retry immediately and delay 5
schedules it as a deferred task firing after 5 seconds. -/
theorem delay_drives_schedule_witness :
    apply_after pol_fail_2_0 la_failed_emptyctx =
      Except.ok
        { target := la_failed_emptyctx,
          decision := Decision.retried Schedule.immediate
            (retry_child pol_fail_2_0 la_failed_emptyctx 0) } ∧
    apply_after pol_fail_2_5 la_failed_emptyctx =
      Except.ok
        { target := la_failed_emptyctx,
          decision := Decision.retried (Schedule.spawn_after 5)
            (retry_child pol_fail_2_5 la_failed_emptyctx 0) } :=
  ⟨(delay_drives_schedule pol_fail_2_0 la_failed_emptyctx 0 rfl rfl rfl
      (by decide) (Or.inl ⟨rfl, rfl⟩)).1 (by norm_num [pol_fail_2_0]),
   (delay_drives_schedule pol_fail_2_5 la_failed_emptyctx 0 rfl rfl rfl
      (by decide) (Or.inl ⟨rfl, rfl⟩)).2 (by norm_num [pol_fail_2_5])⟩

/-- C8: evaluation and retry scheduling never mutate the original
execution: whenever `apply_after` does not raise it returns the very
live action it was given, context and `policies.retry` map included. -/
theorem apply_after_preserves_target (p : ExecutionRetryPolicyApplicator)
    (la : LiveActionDB) :
    apply_after p la = Except.error () ∨
      ∃ d, apply_after p la = Except.ok { target := la, decision := d } := by
  simp only [apply_after, base_apply_after]
  repeat' split
  all_goals first
    | (left; rfl)
    | (right; exact ⟨_, rfl⟩)

end St2Retry
